import Mathlib

/-!
Verification of the naija-AI-backend service (src/main.py) against its
natural-language specification.  Python strings are modelled as lists of
unicode scalar values (`Str := List Char`), byte sequences as `List Nat`
with each element below 256, and the two external collaborators (the
text-generation service and the speech service) as substitutable
functions returning `Except`.  Each HTTP handler is embedded as a pure
function that also returns the list of collaborator calls it performed,
so that temporal claims about which collaborator was invoked can be
stated directly.
-/

/-- Python strings are sequences of unicode scalar values. -/
abbrev Str := List Char

/-- Byte sequences (each entry is a byte value below 256). -/
abbrev Bytes := List Nat

/-- Model of fastapi.HTTPException: a status code and a detail string. -/
structure HTTPError where
  status : Nat
  detail : Str
deriving DecidableEq, Repr

/-- Model of the pydantic ChatRequest body from src/main.py. -/
structure ChatRequest where
  text : Str
  language : Str
deriving DecidableEq, Repr

/-- Python dict.get with a default, for the small literal dicts in src/main.py. -/
def dictGet (m : List (Str × Str)) (k : Str) (d : Str) : Str :=
  (List.lookup k m).getD d

/-- The LANGUAGE_NAME_MAP literal of src/main.py (lines 51-56). -/
def LANGUAGE_NAME_MAP : List (Str × Str) :=
  [("yo-NG".data, "Yoruba".data),
   ("ha-NG".data, "Hausa".data),
   ("ig-NG".data, "Igbo".data),
   ("en-NG".data, "English".data)]

/-- The voice_map literal from the body of the chat handler (lines 104-107). -/
def voice_map : List (Str × Str) :=
  [("ha-NG".data, "hasan".data),
   ("ig-NG".data, "ngozi".data)]

/-- Python str.split on a single separator character: splits on every
occurrence, so the empty string yields one empty piece.  Models
lang.split of src/main.py line 60. -/
def pySplitChar (sep : Char) : Str → List Str
  | [] => [[]]
  | c :: cs =>
    if c = sep then [] :: pySplitChar sep cs
    else
      match pySplitChar sep cs with
      | [] => [[c]]
      | p :: ps => (c :: p) :: ps

/-- src/main.py lines 58-60: converts language codes like yo-NG to the
short yo format by taking the piece before the first dash. -/
def get_spitch_language_code (lang : Str) : Str :=
  (pySplitChar '-' lang).headD []

/-- Whitespace characters stripped by Python str.strip (ASCII portion of
the Python whitespace set; the claims do not depend on the exact set). -/
def isPySpace (c : Char) : Bool :=
  c = ' ' || c = '\t' || c = '\n' || c = '\r' || c = '\x0b' || c = '\x0c'

/-- Python str.strip(): remove leading and trailing whitespace. -/
def pyStrip (s : Str) : Str :=
  ((s.dropWhile isPySpace).reverse.dropWhile isPySpace).reverse

/-! ### urllib.parse.quote / unquote

urllib.parse.quote encodes the string as UTF-8 and percent-encodes every
byte outside the safe set (ASCII letters, digits, the characters
underscore, dot, dash, tilde, and the default safe character slash).
urllib.parse.unquote decodes percent sequences back to bytes and decodes
the byte sequence as UTF-8. -/

/-- UTF-8 encoding of a single unicode scalar value. -/
def utf8EncodeChar (c : Char) : Bytes :=
  let v := c.toNat
  if v < 0x80 then [v]
  else if v < 0x800 then [0xC0 + v / 64, 0x80 + v % 64]
  else if v < 0x10000 then
    [0xE0 + v / 4096, 0x80 + v / 64 % 64, 0x80 + v % 64]
  else
    [0xF0 + v / 262144, 0x80 + v / 4096 % 64, 0x80 + v / 64 % 64, 0x80 + v % 64]

/-- UTF-8 encoding of a string. -/
def utf8Encode : Str → Bytes
  | [] => []
  | c :: cs => utf8EncodeChar c ++ utf8Encode cs

/-- Worker for UTF-8 decoding, structurally recursive on a fuel bound;
each step consumes exactly one unit of fuel, so fuel equal to the length
of the input is always sufficient.  Malformed sequences produce the
replacement character U+FFFD (Python decodes percent data with
errors set to replace) and decoding resumes at the offending byte. -/
def utf8DecodeGo : Nat → Bytes → Str
  | _, [] => []
  | 0, _ => []
  | fuel + 1, b :: bs =>
    if b < 0x80 then Char.ofNat b :: utf8DecodeGo fuel bs
    else if b < 0xC0 then Char.ofNat 0xFFFD :: utf8DecodeGo fuel bs
    else if b < 0xE0 then
      match bs with
      | b2 :: bs2 =>
        if 0x80 ≤ b2 ∧ b2 < 0xC0 then
          Char.ofNat ((b - 0xC0) * 64 + (b2 - 0x80)) :: utf8DecodeGo fuel bs2
        else Char.ofNat 0xFFFD :: utf8DecodeGo fuel bs
      | [] => [Char.ofNat 0xFFFD]
    else if b < 0xF0 then
      match bs with
      | b2 :: b3 :: bs3 =>
        if (0x80 ≤ b2 ∧ b2 < 0xC0) ∧ (0x80 ≤ b3 ∧ b3 < 0xC0) then
          Char.ofNat ((b - 0xE0) * 4096 + (b2 - 0x80) * 64 + (b3 - 0x80)) :: utf8DecodeGo fuel bs3
        else Char.ofNat 0xFFFD :: utf8DecodeGo fuel bs
      | _ => Char.ofNat 0xFFFD :: utf8DecodeGo fuel bs.tail
    else
      match bs with
      | b2 :: b3 :: b4 :: bs4 =>
        if (0x80 ≤ b2 ∧ b2 < 0xC0) ∧ (0x80 ≤ b3 ∧ b3 < 0xC0) ∧ (0x80 ≤ b4 ∧ b4 < 0xC0) then
          Char.ofNat ((b - 0xF0) * 262144 + (b2 - 0x80) * 4096 + (b3 - 0x80) * 64 + (b4 - 0x80))
            :: utf8DecodeGo fuel bs4
        else Char.ofNat 0xFFFD :: utf8DecodeGo fuel bs
      | _ => Char.ofNat 0xFFFD :: utf8DecodeGo fuel bs.tail

/-- UTF-8 decoding of a byte sequence. -/
def utf8Decode (bs : Bytes) : Str :=
  utf8DecodeGo bs.length bs

/-- Bytes that urllib.parse.quote leaves unescaped: ASCII letters and
digits, underscore, dot, dash, tilde, and the default safe slash. -/
def isSafeByte (b : Nat) : Bool :=
  (0x41 ≤ b && b ≤ 0x5A) || (0x61 ≤ b && b ≤ 0x7A) || (0x30 ≤ b && b ≤ 0x39) ||
  b == 0x5F || b == 0x2E || b == 0x2D || b == 0x7E || b == 0x2F

/-- Upper-case hexadecimal digit for a value below 16. -/
def hexDigit (n : Nat) : Char :=
  if n < 10 then Char.ofNat (0x30 + n) else Char.ofNat (0x41 + (n - 10))

/-- quote of one byte: safe bytes stand for themselves, all other bytes
become a percent sign followed by two upper-case hex digits. -/
def quoteByte (b : Nat) : Str :=
  if isSafeByte b then [Char.ofNat b] else ['%', hexDigit (b / 16), hexDigit (b % 16)]

/-- quote of a byte sequence. -/
def quoteBytes : Bytes → Str
  | [] => []
  | b :: bs => quoteByte b ++ quoteBytes bs

/-- urllib.parse.quote with the default safe set. -/
def pyQuote (s : Str) : Str :=
  quoteBytes (utf8Encode s)

/-- Value of a hexadecimal digit character, if it is one. -/
def hexVal (c : Char) : Option Nat :=
  if 0x30 ≤ c.toNat ∧ c.toNat ≤ 0x39 then some (c.toNat - 0x30)
  else if 0x41 ≤ c.toNat ∧ c.toNat ≤ 0x46 then some (c.toNat - 0x41 + 10)
  else if 0x61 ≤ c.toNat ∧ c.toNat ≤ 0x66 then some (c.toNat - 0x61 + 10)
  else none

/-- Worker for percent-decoding, structurally recursive on a fuel bound;
each step consumes exactly one unit of fuel, so fuel equal to the length
of the input is always sufficient.  A percent sign followed by two hex
digits becomes that byte; every other character contributes its UTF-8
bytes (an unparseable percent sign is kept literally, as Python does). -/
def pctDecodeGo : Nat → Str → Bytes
  | _, [] => []
  | 0, s => utf8Encode s
  | fuel + 1, c :: rest =>
    if c = '%' then
      match rest with
      | c1 :: c2 :: rest2 =>
        match hexVal c1, hexVal c2 with
        | some h1, some h2 => (16 * h1 + h2) :: pctDecodeGo fuel rest2
        | _, _ => utf8EncodeChar c ++ pctDecodeGo fuel rest
      | _ => utf8EncodeChar c ++ pctDecodeGo fuel rest
    else utf8EncodeChar c ++ pctDecodeGo fuel rest

/-- Percent-decoding of a string to bytes. -/
def pctDecodeBytes (s : Str) : Bytes :=
  pctDecodeGo s.length s

/-- urllib.parse.unquote: percent-decode to bytes, then decode as UTF-8. -/
def pyUnquote (s : Str) : Str :=
  utf8Decode (pctDecodeBytes s)

/-! ### The HTTP handlers of src/main.py

Each handler is embedded as a pure function over its request data and
its external collaborators, and returns both its HTTP outcome and the
trace of collaborator calls it performed. -/

/-- A call made by the chat handler to one of its two collaborators. -/
inductive CallEvent where
  | genCall (prompt : Str)
  | synthCall (text language voice : Str)
deriving DecidableEq, Repr

/-- Whether a call event is a call to the speech-synthesis collaborator. -/
def CallEvent.isSynth : CallEvent → Bool
  | .genCall _ => false
  | .synthCall _ _ _ => true

/-- Model of the streaming response assembled by the chat handler:
body bytes, media type, and response headers. -/
structure StreamingResp where
  body : Bytes
  media_type : Str
  headers : List (Str × Str)
deriving DecidableEq, Repr

/-- The prompt template from src/main.py lines 93-99. -/
def buildPrompt (language_name user_text : Str) : Str :=
  ("You are a Nigerian languages AI assistant. Chat freely, be jovial, be helpful, be explanatory, you don't always have to be concise, be relatable and reduce formatility, let the user be able to just come and talk to you about anything Your ONLY job is to respond to the user's message in the specified language and nothing else. Do not translate, do not add extra commentary, and do not use any other language in your response. STRICTLY reply only in ").data
  ++ language_name ++ (".\n\nUser message: '").data ++ user_text ++ ("'").data

/-- src/main.py lines 85-127: the chat handler.  generate models the
Gemini text-generation call, synthesize models the Spitch
speech-synthesis call (arguments: text, language, voice); both may fail
with an error message.  The result pairs the HTTP outcome with the trace
of collaborator calls. -/
def chat (generate : Str → Except Str Str)
    (synthesize : Str → Str → Str → Except Str Bytes)
    (request : ChatRequest) : Except HTTPError StreamingResp × List CallEvent :=
  let language_name := dictGet LANGUAGE_NAME_MAP request.language ("English").data
  let prompt := buildPrompt language_name request.text
  match generate prompt with
  | .error e => (.error ⟨500, e⟩, [.genCall prompt])
  | .ok generated =>
    let ai_text := pyStrip generated
    let selected_voice := dictGet voice_map request.language ("femi").data
    let spitch_lang := get_spitch_language_code request.language
    match synthesize ai_text spitch_lang selected_voice with
    | .error e =>
      (.error ⟨500, e⟩, [.genCall prompt, .synthCall ai_text spitch_lang selected_voice])
    | .ok audio_content =>
      let encoded_ai_text := pyQuote ai_text
      (.ok ⟨audio_content, ("audio/wav").data, [(("X-AI-Response-Text").data, encoded_ai_text)]⟩,
        [.genCall prompt, .synthCall ai_text spitch_lang selected_voice])

/-- A call made by the speech-to-text handler to the transcription
collaborator: the audio content, the short language code, and the
declared content type. -/
structure TranscribeCall where
  content : Bytes
  language : Str
  content_type : Str
deriving DecidableEq, Repr

/-- src/main.py line 65: the upload is accepted only when its declared
content type is present, non-empty, and starts with audio/. -/
def contentTypeOk : Option Str → Bool
  | none => false
  | some s => decide (s ≠ []) && List.isPrefixOf ("audio/").data s

/-- Detail string of the 400 error of src/main.py line 66. -/
def invalidContentTypeDetail (ct : Option Str) : Str :=
  ("Invalid or missing content type: ").data
  ++ (match ct with | none => ("None").data | some s => s)
  ++ (". Please upload an audio file.").data

/-- src/main.py lines 63-82: the speech-to-text handler.  transcribe
models the Spitch transcription call (arguments: content, language,
content type).  The result pairs the HTTP outcome with the trace of
transcription calls. -/
def speech_to_text (transcribe : Bytes → Str → Str → Except Str Str)
    (content_type : Option Str) (content : Bytes) (language : Str) :
    Except HTTPError Str × List TranscribeCall :=
  if contentTypeOk content_type then
    let ct := content_type.getD []
    let spitch_lang := get_spitch_language_code language
    match transcribe content spitch_lang ct with
    | .ok t => (.ok t, [⟨content, spitch_lang, ct⟩])
    | .error e =>
      (.error ⟨500, ("Spitch API failed to process the audio file. Error: ").data ++ e⟩,
        [⟨content, spitch_lang, ct⟩])
  else (.error ⟨400, invalidContentTypeDetail content_type⟩, [])

/-- src/main.py lines 129-131: the health-check handler, returning a
constant JSON object modelled as a list of key/value pairs. -/
def read_root : List (Str × Str) :=
  [(("status").data, ("ok").data),
   (("message").data, ("Naija AI Assistant is running!").data)]

/-- Request body of the text-to-speech endpoint described by the
specification: text plus optional language and voice. -/
structure TTSRequest where
  text : Str
  language : Option Str
  voice : Option Str
deriving DecidableEq, Repr

/-- Modelled from the spec: the POST /text-to-speech/ synthesis handler
is absent from src/main.py (the file only defines /speech-to-text/,
/chat/ and the health check), so it is modelled from sections 4.5 and 6
of the specification: accept text, language and voice, apply the default
language en-NG and the default voice femi when they are omitted,
normalize the language tag to the short code, delegate directly to the
external synthesis service, and return the resulting bytes with the
fixed media type audio/wav; any upstream failure becomes a server
error. -/
def text_to_speech (synthesize : Str → Str → Str → Except Str Bytes)
    (request : TTSRequest) : Except HTTPError StreamingResp × List CallEvent :=
  let language := request.language.getD ("en-NG").data
  let voice := request.voice.getD ("femi").data
  let spitch_lang := get_spitch_language_code language
  match synthesize request.text spitch_lang voice with
  | .error e => (.error ⟨500, e⟩, [.synthCall request.text spitch_lang voice])
  | .ok audio_content =>
    (.ok ⟨audio_content, ("audio/wav").data, []⟩,
      [.synthCall request.text spitch_lang voice])

/-! ### Properties of the language code normalizer -/

theorem pySplitChar_ne_nil (sep : Char) (s : Str) : pySplitChar sep s ≠ [] := by
  induction s with
  | nil => simp [pySplitChar]
  | cons c cs ih =>
    simp only [pySplitChar]
    by_cases h : c = sep
    · simp [h]
    · simp only [if_neg h]
      cases hs : pySplitChar sep cs with
      | nil => simp
      | cons p ps => simp

theorem pySplitChar_of_not_mem (sep : Char) (s : Str) (h : sep ∉ s) :
    pySplitChar sep s = [s] := by
  induction s with
  | nil => simp [pySplitChar]
  | cons c cs ih =>
    have hc : c ≠ sep := fun hc => h (hc ▸ List.mem_cons_self c cs)
    have hcs : sep ∉ cs := fun hm => h (List.mem_cons_of_mem c hm)
    simp only [pySplitChar, if_neg hc, ih hcs]

theorem pySplitChar_append (sep : Char) (a b : Str) (h : sep ∉ a) :
    pySplitChar sep (a ++ sep :: b) = a :: pySplitChar sep b := by
  induction a with
  | nil => simp [pySplitChar]
  | cons c a' ih =>
    have hc : c ≠ sep := fun hc => h (hc ▸ List.mem_cons_self c a')
    have ha' : sep ∉ a' := fun hm => h (List.mem_cons_of_mem c hm)
    simp only [List.cons_append, pySplitChar, if_neg hc]
    rw [show List.append a' (sep :: b) = a' ++ sep :: b from rfl, ih ha']

theorem get_spitch_of_not_mem (s : Str) (h : '-' ∉ s) :
    get_spitch_language_code s = s := by
  simp [get_spitch_language_code, pySplitChar_of_not_mem '-' s h]

theorem get_spitch_append (a b : Str) (h : '-' ∉ a) :
    get_spitch_language_code (a ++ '-' :: b) = a := by
  simp [get_spitch_language_code, pySplitChar_append '-' a b h]

theorem not_mem_get_spitch (s : Str) : '-' ∉ get_spitch_language_code s := by
  induction s with
  | nil => simp [get_spitch_language_code, pySplitChar]
  | cons c cs ih =>
    simp only [get_spitch_language_code, pySplitChar]
    by_cases h : c = '-'
    · simp [h]
    · simp only [if_neg h]
      cases hs : pySplitChar '-' cs with
      | nil => exact absurd hs (pySplitChar_ne_nil '-' cs)
      | cons p ps =>
        simp only [List.headD_cons, List.mem_cons, not_or]
        refine ⟨fun he => h he.symm, ?_⟩
        have := ih
        rw [get_spitch_language_code, hs, List.headD_cons] at this
        exact this

/-- C3: for every string of the form a-b (a before the first dash, so a
contains no dash) the normalizer returns a, and for every string with no
dash it returns the string unchanged.  Purity and totality hold by
construction: get_spitch_language_code is a total Lean function. -/
theorem claim_C3 (a b s : Str) (ha : '-' ∉ a) (hs : '-' ∉ s) :
    get_spitch_language_code (a ++ '-' :: b) = a ∧ get_spitch_language_code s = s :=
  ⟨get_spitch_append a b ha, get_spitch_of_not_mem s hs⟩

theorem claim_C3_witness :
    get_spitch_language_code (("yo").data ++ '-' :: ("NG").data) = ("yo").data ∧
    get_spitch_language_code ("pcm").data = ("pcm").data :=
  claim_C3 ("yo").data ("NG").data ("pcm").data (by decide) (by decide)

/-- C10: the normalizer is idempotent: its output never contains a dash,
so applying it to its own output returns that output unchanged. -/
theorem claim_C10 (s : Str) :
    '-' ∉ get_spitch_language_code s ∧
    get_spitch_language_code (get_spitch_language_code s) = get_spitch_language_code s :=
  ⟨not_mem_get_spitch s, get_spitch_of_not_mem _ (not_mem_get_spitch s)⟩

/-- C4: voice selection is a pure total function of the language tag:
ha-NG yields hasan, ig-NG yields ngozi, and every other string yields
the default voice femi. -/
theorem claim_C4 (s : Str) (h1 : s ≠ ("ha-NG").data) (h2 : s ≠ ("ig-NG").data) :
    dictGet voice_map ("ha-NG").data ("femi").data = ("hasan").data ∧
    dictGet voice_map ("ig-NG").data ("femi").data = ("ngozi").data ∧
    dictGet voice_map s ("femi").data = ("femi").data := by
  refine ⟨by decide, by decide, ?_⟩
  have e1 : (s == ("ha-NG").data) = false := beq_eq_false_iff_ne.mpr h1
  have e2 : (s == ("ig-NG").data) = false := beq_eq_false_iff_ne.mpr h2
  simp only [dictGet, voice_map, List.lookup, e1, e2]
  rfl

theorem claim_C4_witness :
    dictGet voice_map ("ha-NG").data ("femi").data = ("hasan").data ∧
    dictGet voice_map ("ig-NG").data ("femi").data = ("ngozi").data ∧
    dictGet voice_map ("yo-NG").data ("femi").data = ("femi").data :=
  claim_C4 ("yo-NG").data (by decide) (by decide)

/-- C5: the display-name lookup used for prompt construction maps yo-NG
to Yoruba, ha-NG to Hausa, ig-NG to Igbo, en-NG to English, and every
other string to the default English. -/
theorem claim_C5 (s : Str) (h1 : s ≠ ("yo-NG").data) (h2 : s ≠ ("ha-NG").data)
    (h3 : s ≠ ("ig-NG").data) (h4 : s ≠ ("en-NG").data) :
    dictGet LANGUAGE_NAME_MAP ("yo-NG").data ("English").data = ("Yoruba").data ∧
    dictGet LANGUAGE_NAME_MAP ("ha-NG").data ("English").data = ("Hausa").data ∧
    dictGet LANGUAGE_NAME_MAP ("ig-NG").data ("English").data = ("Igbo").data ∧
    dictGet LANGUAGE_NAME_MAP ("en-NG").data ("English").data = ("English").data ∧
    dictGet LANGUAGE_NAME_MAP s ("English").data = ("English").data := by
  refine ⟨by decide, by decide, by decide, by decide, ?_⟩
  have e1 : (s == ("yo-NG").data) = false := beq_eq_false_iff_ne.mpr h1
  have e2 : (s == ("ha-NG").data) = false := beq_eq_false_iff_ne.mpr h2
  have e3 : (s == ("ig-NG").data) = false := beq_eq_false_iff_ne.mpr h3
  have e4 : (s == ("en-NG").data) = false := beq_eq_false_iff_ne.mpr h4
  simp only [dictGet, LANGUAGE_NAME_MAP, List.lookup, e1, e2, e3, e4]
  rfl

theorem claim_C5_witness :
    dictGet LANGUAGE_NAME_MAP ("yo-NG").data ("English").data = ("Yoruba").data ∧
    dictGet LANGUAGE_NAME_MAP ("ha-NG").data ("English").data = ("Hausa").data ∧
    dictGet LANGUAGE_NAME_MAP ("ig-NG").data ("English").data = ("Igbo").data ∧
    dictGet LANGUAGE_NAME_MAP ("en-NG").data ("English").data = ("English").data ∧
    dictGet LANGUAGE_NAME_MAP ("xx-YY").data ("English").data = ("English").data :=
  claim_C5 ("xx-YY").data (by decide) (by decide) (by decide) (by decide)

/-- C9, counterexample: the health-check handler does not return the
JSON object with the single field status set to ok; its constant return
value also carries a message field, so the returned object differs from
the one the claim states. -/
theorem claim_C9_counterexample :
    read_root ≠ [(("status").data, ("ok").data)] := by decide

/-- C9, amended: the health-check handler takes no input and returns the
constant JSON object whose status field is ok and which additionally
carries a message field with the value Naija AI Assistant is running!. -/
theorem claim_C9_amended :
    List.lookup ("status").data read_root = some (("ok").data) ∧
    List.lookup ("message").data read_root = some (("Naija AI Assistant is running!").data) ∧
    read_root.length = 2 := by decide

/-- C1: in the chat handler, if the text-generation call fails then the
speech-synthesis collaborator is never invoked: the call trace of the
handler contains no synthesis call. -/
theorem claim_C1 (generate : Str → Except Str Str)
    (synthesize : Str → Str → Str → Except Str Bytes) (request : ChatRequest) (e : Str)
    (h : generate (buildPrompt (dictGet LANGUAGE_NAME_MAP request.language ("English").data)
      request.text) = .error e) :
    ((chat generate synthesize request).2.all fun ev => !ev.isSynth) = true := by
  simp only [chat, h, List.all_cons, List.all_nil, CallEvent.isSynth]
  rfl

theorem claim_C1_witness :
    ((chat (fun _ => .error ("boom").data) (fun _ _ _ => .ok [1, 2, 3])
      ⟨("hello").data, ("yo-NG").data⟩).2.all fun ev => !ev.isSynth) = true :=
  claim_C1 (fun _ => .error ("boom").data) (fun _ _ _ => .ok [1, 2, 3])
    ⟨("hello").data, ("yo-NG").data⟩ ("boom").data rfl

/-- C6: for every upload whose declared content type is missing, empty,
or does not begin with audio/, the speech-to-text handler returns a 400
client error and the transcription collaborator is never invoked (its
call trace is empty). -/
theorem claim_C6 (transcribe : Bytes → Str → Str → Except Str Str)
    (content_type : Option Str) (content : Bytes) (language : Str)
    (h : contentTypeOk content_type = false) :
    (speech_to_text transcribe content_type content language).1
        = .error ⟨400, invalidContentTypeDetail content_type⟩ ∧
    (speech_to_text transcribe content_type content language).2 = [] := by
  constructor <;> simp only [speech_to_text, h, Bool.false_eq_true, if_false]

theorem claim_C6_witness :
    (speech_to_text (fun _ _ _ => .ok ("hi").data) (some ("text/plain").data)
        [0, 1] ("en-NG").data).1
      = .error ⟨400, invalidContentTypeDetail (some ("text/plain").data)⟩ ∧
    (speech_to_text (fun _ _ _ => .ok ("hi").data) (some ("text/plain").data)
        [0, 1] ("en-NG").data).2 = [] :=
  claim_C6 (fun _ _ _ => .ok ("hi").data) (some ("text/plain").data) [0, 1]
    ("en-NG").data (by decide)

/-- C7: in the chat handler, any failure of the text-generation call or
the speech-synthesis call aborts the whole request with a single 500
error whose detail is exactly (hence contains) the underlying error
message, and no partial response is returned. -/
theorem claim_C7 (generate : Str → Except Str Str)
    (synthesize : Str → Str → Str → Except Str Bytes) (request : ChatRequest) (e : Str) :
    (generate (buildPrompt (dictGet LANGUAGE_NAME_MAP request.language ("English").data)
        request.text) = .error e →
      (chat generate synthesize request).1 = .error ⟨500, e⟩) ∧
    (∀ t, generate (buildPrompt (dictGet LANGUAGE_NAME_MAP request.language ("English").data)
        request.text) = .ok t →
      synthesize (pyStrip t) (get_spitch_language_code request.language)
        (dictGet voice_map request.language ("femi").data) = .error e →
      (chat generate synthesize request).1 = .error ⟨500, e⟩) := by
  constructor
  · intro h
    simp only [chat, h]
  · intro t hg hs
    simp only [chat, hg, hs]

theorem claim_C7_witness :
    (chat (fun _ => .error ("gen failed").data) (fun _ _ _ => .ok [0])
        ⟨("hi").data, ("en-NG").data⟩).1 = .error ⟨500, ("gen failed").data⟩ ∧
    (chat (fun _ => .ok (" reply ").data) (fun _ _ _ => .error ("tts failed").data)
        ⟨("hi").data, ("en-NG").data⟩).1 = .error ⟨500, ("tts failed").data⟩ :=
  ⟨(claim_C7 (fun _ => .error ("gen failed").data) (fun _ _ _ => .ok [0])
      ⟨("hi").data, ("en-NG").data⟩ ("gen failed").data).1 rfl,
   (claim_C7 (fun _ => .ok (" reply ").data) (fun _ _ _ => .error ("tts failed").data)
      ⟨("hi").data, ("en-NG").data⟩ ("tts failed").data).2 (" reply ").data rfl rfl⟩

/-! ### Round-trip of urllib.parse.quote and unquote -/

theorem char_valid_nat (c : Char) :
    c.toNat < 0xd800 ∨ (0xdfff < c.toNat ∧ c.toNat < 0x110000) := by
  have h := c.valid
  simp only [UInt32.isValidChar, Nat.isValidChar, UInt32.lt_def, BitVec.lt_def] at h
  simpa [Char.toNat, UInt32.toNat] using h

theorem toNat_ofNat_valid {n : Nat} (h : n.isValidChar) : (Char.ofNat n).toNat = n := by
  rw [Char.ofNat, dif_pos h]
  rfl

theorem utf8DecodeGo_encodeChar (c : Char) (rest : Bytes) (fuel : Nat) :
    utf8DecodeGo (fuel + 1) (utf8EncodeChar c ++ rest) = c :: utf8DecodeGo fuel rest := by
  have hv : c.toNat < 0x110000 := by rcases char_valid_nat c with h | ⟨_, h⟩ <;> omega
  by_cases h1 : c.toNat < 0x80
  · have he : utf8EncodeChar c = [c.toNat] := by simp [utf8EncodeChar, h1]
    rw [he, List.cons_append, List.nil_append]
    simp only [utf8DecodeGo, if_pos h1, Char.ofNat_toNat]
  · by_cases h2 : c.toNat < 0x800
    · have he : utf8EncodeChar c = [0xC0 + c.toNat / 64, 0x80 + c.toNat % 64] := by
        simp [utf8EncodeChar, h1, h2]
      rw [he]
      simp only [List.cons_append, List.nil_append]
      have e1 : ¬ (0xC0 + c.toNat / 64 < 0x80) := by omega
      have e2 : ¬ (0xC0 + c.toNat / 64 < 0xC0) := by omega
      have e3 : 0xC0 + c.toNat / 64 < 0xE0 := by omega
      have e4 : 0x80 ≤ 0x80 + c.toNat % 64 ∧ 0x80 + c.toNat % 64 < 0xC0 := by omega
      simp only [utf8DecodeGo, if_neg e1, if_neg e2, if_pos e3, if_pos e4]
      have ev : (0xC0 + c.toNat / 64 - 0xC0) * 64 + (0x80 + c.toNat % 64 - 0x80) = c.toNat := by
        omega
      rw [ev, Char.ofNat_toNat]
    · by_cases h3 : c.toNat < 0x10000
      · have he : utf8EncodeChar c
            = [0xE0 + c.toNat / 4096, 0x80 + c.toNat / 64 % 64, 0x80 + c.toNat % 64] := by
          simp [utf8EncodeChar, h1, h2, h3]
        rw [he]
        simp only [List.cons_append, List.nil_append]
        have e1 : ¬ (0xE0 + c.toNat / 4096 < 0x80) := by omega
        have e2 : ¬ (0xE0 + c.toNat / 4096 < 0xC0) := by omega
        have e3 : ¬ (0xE0 + c.toNat / 4096 < 0xE0) := by omega
        have e4 : 0xE0 + c.toNat / 4096 < 0xF0 := by omega
        have e5 : (0x80 ≤ 0x80 + c.toNat / 64 % 64 ∧ 0x80 + c.toNat / 64 % 64 < 0xC0) ∧
            (0x80 ≤ 0x80 + c.toNat % 64 ∧ 0x80 + c.toNat % 64 < 0xC0) := by omega
        simp only [utf8DecodeGo, if_neg e1, if_neg e2, if_neg e3, if_pos e4, if_pos e5]
        have ev : (0xE0 + c.toNat / 4096 - 0xE0) * 4096 + (0x80 + c.toNat / 64 % 64 - 0x80) * 64
            + (0x80 + c.toNat % 64 - 0x80) = c.toNat := by omega
        rw [ev, Char.ofNat_toNat]
      · have he : utf8EncodeChar c = [0xF0 + c.toNat / 262144, 0x80 + c.toNat / 4096 % 64,
            0x80 + c.toNat / 64 % 64, 0x80 + c.toNat % 64] := by
          simp [utf8EncodeChar, h1, h2, h3]
        rw [he]
        simp only [List.cons_append, List.nil_append]
        have e1 : ¬ (0xF0 + c.toNat / 262144 < 0x80) := by omega
        have e2 : ¬ (0xF0 + c.toNat / 262144 < 0xC0) := by omega
        have e3 : ¬ (0xF0 + c.toNat / 262144 < 0xE0) := by omega
        have e4 : ¬ (0xF0 + c.toNat / 262144 < 0xF0) := by omega
        have e5 : (0x80 ≤ 0x80 + c.toNat / 4096 % 64 ∧ 0x80 + c.toNat / 4096 % 64 < 0xC0) ∧
            (0x80 ≤ 0x80 + c.toNat / 64 % 64 ∧ 0x80 + c.toNat / 64 % 64 < 0xC0) ∧
            (0x80 ≤ 0x80 + c.toNat % 64 ∧ 0x80 + c.toNat % 64 < 0xC0) := by omega
        simp only [utf8DecodeGo, if_neg e1, if_neg e2, if_neg e3, if_neg e4, if_pos e5]
        have ev : (0xF0 + c.toNat / 262144 - 0xF0) * 262144
            + (0x80 + c.toNat / 4096 % 64 - 0x80) * 4096
            + (0x80 + c.toNat / 64 % 64 - 0x80) * 64 + (0x80 + c.toNat % 64 - 0x80) = c.toNat := by
          omega
        rw [ev, Char.ofNat_toNat]

theorem utf8EncodeChar_ne_nil (c : Char) : utf8EncodeChar c ≠ [] := by
  simp only [utf8EncodeChar]
  split
  · simp
  · split
    · simp
    · split <;> simp

theorem utf8DecodeGo_encode (s : Str) : ∀ fuel, (utf8Encode s).length ≤ fuel →
    utf8DecodeGo fuel (utf8Encode s) = s := by
  induction s with
  | nil => intro fuel h; cases fuel <;> simp [utf8Encode, utf8DecodeGo]
  | cons c cs ih =>
    intro fuel h
    have hne : utf8EncodeChar c ≠ [] := utf8EncodeChar_ne_nil c
    have hlen : 1 ≤ (utf8EncodeChar c).length := by
      cases he : utf8EncodeChar c with
      | nil => exact absurd he hne
      | cons x xs => simp
    rw [utf8Encode] at h ⊢
    rw [List.length_append] at h
    cases fuel with
    | zero => omega
    | succ f =>
      rw [utf8DecodeGo_encodeChar]
      rw [ih f (by omega)]

theorem utf8Decode_utf8Encode (s : Str) : utf8Decode (utf8Encode s) = s :=
  utf8DecodeGo_encode s _ (Nat.le_refl _)

theorem utf8EncodeChar_lt (c : Char) : ∀ b ∈ utf8EncodeChar c, b < 256 := by
  intro b hb
  have hv : c.toNat < 0x110000 := by rcases char_valid_nat c with h | ⟨_, h⟩ <;> omega
  by_cases h1 : c.toNat < 0x80
  · simp [utf8EncodeChar, h1] at hb
    omega
  · by_cases h2 : c.toNat < 0x800
    · simp [utf8EncodeChar, h1, h2] at hb
      rcases hb with hb | hb <;> omega
    · by_cases h3 : c.toNat < 0x10000
      · simp [utf8EncodeChar, h1, h2, h3] at hb
        rcases hb with hb | hb | hb <;> omega
      · simp [utf8EncodeChar, h1, h2, h3] at hb
        rcases hb with hb | hb | hb | hb <;> omega

theorem utf8Encode_lt (s : Str) : ∀ b ∈ utf8Encode s, b < 256 := by
  induction s with
  | nil => simp [utf8Encode]
  | cons c cs ih =>
    intro b hb
    rw [utf8Encode, List.mem_append] at hb
    rcases hb with hb | hb
    · exact utf8EncodeChar_lt c b hb
    · exact ih b hb

theorem hexVal_hexDigit : ∀ n < 16, hexVal (hexDigit n) = some n := by decide

theorem isSafeByte_facts {b : Nat} (h : isSafeByte b = true) : b < 0x80 ∧ b ≠ 0x25 := by
  simp only [isSafeByte, Bool.or_eq_true, Bool.and_eq_true, decide_eq_true_eq,
    beq_iff_eq] at h
  omega

theorem ofNat_ne_percent {b : Nat} (hb : b < 0x80) (hne : b ≠ 0x25) :
    ¬ (Char.ofNat b = '%') := by
  intro he
  have ht : (Char.ofNat b).toNat = b := toNat_ofNat_valid (Or.inl (by omega))
  rw [he] at ht
  have : ('%').toNat = 0x25 := by decide
  omega

theorem utf8EncodeChar_ofNat_lt {b : Nat} (hb : b < 0x80) :
    utf8EncodeChar (Char.ofNat b) = [b] := by
  have ht : (Char.ofNat b).toNat = b := toNat_ofNat_valid (Or.inl (by omega))
  simp [utf8EncodeChar, ht, hb]

theorem pctDecodeGo_quoteBytes (bs : Bytes) : ∀ fuel, (quoteBytes bs).length ≤ fuel →
    (∀ b ∈ bs, b < 256) → pctDecodeGo fuel (quoteBytes bs) = bs := by
  induction bs with
  | nil => intro fuel _ _; cases fuel <;> simp [quoteBytes, pctDecodeGo]
  | cons b bs' ih =>
    intro fuel hf hb
    have hb0 : b < 256 := hb b (List.mem_cons_self b bs')
    have hb' : ∀ x ∈ bs', x < 256 := fun x hx => hb x (List.mem_cons_of_mem b hx)
    rw [quoteBytes] at hf ⊢
    by_cases hs : isSafeByte b
    · obtain ⟨hlt, hne⟩ := isSafeByte_facts hs
      have hq : quoteByte b = [Char.ofNat b] := by simp [quoteByte, hs]
      rw [hq] at hf ⊢
      rw [List.cons_append, List.nil_append] at hf ⊢
      cases fuel with
      | zero => simp at hf
      | succ f =>
        simp only [pctDecodeGo, if_neg (ofNat_ne_percent hlt hne)]
        rw [utf8EncodeChar_ofNat_lt hlt, List.cons_append, List.nil_append]
        simp only [List.length_cons] at hf
        rw [ih f (by omega) hb']
    · have hq : quoteByte b = ['%', hexDigit (b / 16), hexDigit (b % 16)] := by
        simp [quoteByte, hs]
      rw [hq] at hf ⊢
      simp only [List.cons_append, List.nil_append] at hf ⊢
      cases fuel with
      | zero => simp at hf
      | succ f =>
        have h16 : hexVal (hexDigit (b / 16)) = some (b / 16) :=
          hexVal_hexDigit (b / 16) (by omega)
        have h16' : hexVal (hexDigit (b % 16)) = some (b % 16) :=
          hexVal_hexDigit (b % 16) (by omega)
        simp only [pctDecodeGo, if_pos rfl, h16, h16']
        have ev : 16 * (b / 16) + b % 16 = b := by omega
        rw [ev]
        simp only [List.length_cons] at hf
        rw [ih f (by omega) hb']
        simp

theorem pyUnquote_pyQuote (s : Str) : pyUnquote (pyQuote s) = s := by
  rw [pyUnquote, pyQuote, pctDecodeBytes]
  rw [pctDecodeGo_quoteBytes (utf8Encode s) _ (Nat.le_refl _) (utf8Encode_lt s)]
  exact utf8Decode_utf8Encode s

/-- C2: whenever the generation step returns reply text t (and the
synthesis step succeeds, so that a response is assembled), the value the
chat handler places in the X-AI-Response-Text response header is the
percent-encoding of the whitespace-trimmed text, and percent-decoding
that header value yields exactly the trimmed text, including for text
containing non-ASCII characters and spaces. -/
theorem claim_C2 (generate : Str → Except Str Str)
    (synthesize : Str → Str → Str → Except Str Bytes) (request : ChatRequest)
    (t : Str) (wav : Bytes)
    (hg : generate (buildPrompt (dictGet LANGUAGE_NAME_MAP request.language ("English").data)
      request.text) = .ok t)
    (hs : synthesize (pyStrip t) (get_spitch_language_code request.language)
      (dictGet voice_map request.language ("femi").data) = .ok wav) :
    (chat generate synthesize request).1 = .ok ⟨wav, ("audio/wav").data,
        [(("X-AI-Response-Text").data, pyQuote (pyStrip t))]⟩ ∧
    pyUnquote (pyQuote (pyStrip t)) = pyStrip t := by
  constructor
  · simp only [chat, hg, hs]
  · exact pyUnquote_pyQuote (pyStrip t)

theorem claim_C2_witness :
    (chat (fun _ => .ok ("  Bá dé ni? ").data) (fun _ _ _ => .ok [87, 65, 86])
        ⟨("How far?").data, ("ha-NG").data⟩).1
      = .ok ⟨[87, 65, 86], ("audio/wav").data,
          [(("X-AI-Response-Text").data, pyQuote (pyStrip ("  Bá dé ni? ").data))]⟩ ∧
    pyUnquote (pyQuote (pyStrip ("  Bá dé ni? ").data)) = pyStrip ("  Bá dé ni? ").data :=
  claim_C2 (fun _ => .ok ("  Bá dé ni? ").data) (fun _ _ _ => .ok [87, 65, 86])
    ⟨("How far?").data, ("ha-NG").data⟩ ("  Bá dé ni? ").data [87, 65, 86] rfl rfl

/-- C8: the text-to-speech synthesis operation (modelled from the spec,
see text_to_speech: the handler is absent from src/main.py) accepts
text, language and voice, applies the defaults en-NG and femi for an
omitted language or voice, delegates to the external synthesis service,
and returns the resulting bytes as a binary audio/wav response; in
particular a synthesis stub returning the three bytes of ABC yields a
response whose body is exactly those bytes with media type audio/wav. -/
theorem claim_C8 (synthesize : Str → Str → Str → Except Str Bytes)
    (request : TTSRequest) (b : Bytes)
    (h : synthesize request.text
      (get_spitch_language_code (request.language.getD ("en-NG").data))
      (request.voice.getD ("femi").data) = .ok b) :
    (text_to_speech synthesize request).1 = .ok ⟨b, ("audio/wav").data, []⟩ ∧
    (text_to_speech synthesize request).2 = [.synthCall request.text
      (get_spitch_language_code (request.language.getD ("en-NG").data))
      (request.voice.getD ("femi").data)] := by
  constructor <;> simp only [text_to_speech, h]

theorem claim_C8_witness :
    (text_to_speech (fun _ _ _ => .ok [65, 66, 67])
        ⟨("hello").data, some ("en-NG").data, some ("femi").data⟩).1
      = .ok ⟨[65, 66, 67], ("audio/wav").data, []⟩ ∧
    (text_to_speech (fun _ _ _ => .ok [65, 66, 67])
        ⟨("hello").data, some ("en-NG").data, some ("femi").data⟩).2
      = [.synthCall ("hello").data
          (get_spitch_language_code ((some ("en-NG").data).getD ("en-NG").data))
          ((some ("femi").data).getD ("femi").data)] :=
  claim_C8 (fun _ _ _ => .ok [65, 66, 67])
    ⟨("hello").data, some ("en-NG").data, some ("femi").data⟩ [65, 66, 67] rfl
